import Mathlib

/-
Shallow embedding of the Personal Library Manager repository.

The repository holds two Python front-ends sharing one record model:
  src/library_manager.py : text-menu front-end, namespace Menu below;
  src/app.py             : web-form front-end, namespace App below.

Python str.lower and str.strip are modelled by pyLower and pyStrip, which
agree with Python on ASCII input.  The JSON backing file is modelled at the
level of parsed JSON values (FileState), since the claims concern the
structure of the persisted data, not its textual indentation.
-/

/-- ASCII case folding, modelling Python str.lower on ASCII input. -/
def asciiLower (c : Char) : Char :=
  if 65 ≤ c.toNat ∧ c.toNat ≤ 90 then Char.ofNat (c.toNat + 32) else c

/-- Model of Python str.lower. -/
def pyLower (s : String) : String :=
  String.mk (s.data.map asciiLower)

/-- ASCII whitespace recognizer used by the model of str.strip. -/
def isSpaceChar (c : Char) : Bool :=
  c == ' ' || c == '\t' || c == '\n' || c == '\r'

/-- Remove leading whitespace characters from a character list. -/
def dropLeadingSpaces : List Char → List Char
  | [] => []
  | c :: rest => if isSpaceChar c then dropLeadingSpaces rest else c :: rest

/-- Model of Python str.strip: whitespace removed from both ends. -/
def pyStrip (s : String) : String :=
  String.mk ((dropLeadingSpaces ((dropLeadingSpaces s.data).reverse)).reverse)

/-- Helper for substring scanning: the first list starts the second. -/
def leadsWith : List Char → List Char → Bool
  | [], _ => true
  | _ :: _, [] => false
  | a :: as, b :: bs => a == b && leadsWith as bs

/-- The needle occurs contiguously somewhere in the haystack. -/
def occursIn (needle : List Char) : List Char → Bool
  | [] => leadsWith needle []
  | c :: rest => leadsWith needle (c :: rest) || occursIn needle rest

/-- Model of the Python expression sub in hay for strings. -/
def strContains (hay sub : String) : Bool :=
  occursIn sub.data hay.data

/-- The Book record: both front-ends store dictionaries with exactly the
keys Title, Author, Year, Genre, Read. -/
structure Book where
  title : String
  author : String
  year : Int
  genre : String
  read : Bool
deriving DecidableEq, Repr

/-- Parsed JSON values, as returned by json.load.  Numbers are modelled as
integers, which covers every value the program itself writes. -/
inductive Json where
  | null : Json
  | bool : Bool → Json
  | num : Int → Json
  | str : String → Json
  | arr : List Json → Json
  | obj : List (String × Json) → Json

/-- State of the backing file: absent (FileNotFoundError on open), present
but not valid JSON (json.load raises JSONDecodeError), or valid JSON. -/
inductive FileState where
  | absent : FileState
  | invalid : String → FileState
  | json : Json → FileState

/-- load_library from both src/library_manager.py and src/app.py: return
the parsed JSON content, or the empty list on FileNotFoundError or
JSONDecodeError.  No shape validation is performed. -/
def load_library : FileState → Json
  | FileState.absent => Json.arr []
  | FileState.invalid _ => Json.arr []
  | FileState.json j => j

/-- The JSON object a Book serializes to, with the five fixed keys. -/
def bookToJson (b : Book) : Json :=
  Json.obj [("Title", Json.str b.title), ("Author", Json.str b.author),
            ("Year", Json.num b.year), ("Genre", Json.str b.genre),
            ("Read", Json.bool b.read)]

/-- save_library from both front-ends: json.dump of the whole list,
fully overwriting the prior file content. -/
def save_library (library : List Book) : FileState :=
  FileState.json (Json.arr (library.map bookToJson))

/-- Key lookup in a JSON object, as Python dict access performs. -/
def jsonLookup : List (String × Json) → String → Option Json
  | [], _ => none
  | (k, v) :: rest, key => if k = key then some v else jsonLookup rest key

/-- Reading one book record back out of a JSON value: the five keyed field
accesses the program performs on a loaded dictionary. -/
def readBook (j : Json) : Option Book :=
  match j with
  | Json.obj fields =>
    match jsonLookup fields "Title", jsonLookup fields "Author",
          jsonLookup fields "Year", jsonLookup fields "Genre",
          jsonLookup fields "Read" with
    | some (Json.str t), some (Json.str a), some (Json.num y),
      some (Json.str g), some (Json.bool r) => some (Book.mk t a y g r)
    | _, _, _, _, _ => none
  | _ => none

/-- Decode a list of JSON values as book records, failing if any fails. -/
def decodeBookList : List Json → Option (List Book)
  | [] => some []
  | j :: rest =>
    match readBook j, decodeBookList rest with
    | some b, some bs => some (b :: bs)
    | _, _ => none

/-- Decode a JSON value as a whole library. -/
def decodeBooks : Json → Option (List Book)
  | Json.arr xs => decodeBookList xs
  | _ => none

/-- Combined in-memory and on-disk state of a running front-end. -/
structure AppState where
  mem : List Book
  file : FileState

/-- The title comparison both front-ends use:
book.Title.lower() == title.lower(). -/
def titleMatch (b : Book) (title : String) : Bool :=
  pyLower b.title == pyLower title

/-- The loop for book in library with a case-insensitive title test:
first matching record, if any. -/
def findFirstMatch : List Book → String → Option Book
  | [], _ => none
  | b :: rest, title =>
    if titleMatch b title then some b else findFirstMatch rest title

/-- Python list.remove: delete the first element equal to the argument. -/
def listRemoveFirstEq : List Book → Book → List Book
  | [], _ => []
  | x :: rest, b => if x = b then rest else x :: listRemoveFirstEq rest b

/-- The remove_book loop shared verbatim by both front-ends: find the first
case-insensitive title match and call library.remove on it; report whether
a book was removed. -/
def removeBookCore (library : List Book) (title : String) : List Book × Bool :=
  match findFirstMatch library title with
  | some b => (listRemoveFirstEq library b, true)
  | none => (library, false)

/-- The menu front-end reads the read flag as
answer.strip().lower() == "yes". -/
def pyBoolYes (answer : String) : Bool :=
  pyLower (pyStrip answer) == "yes"

/-- Which field a search runs against.  The menu front-end asks for choice
1 or 2; the web front-end asks for the radio value Title or Author. -/
inductive SearchField where
  | byTitle : SearchField
  | byAuthor : SearchField
deriving DecidableEq, Repr

/-- Projection of the chosen search field out of a book. -/
def fieldOf (b : Book) : SearchField → String
  | SearchField.byTitle => b.title
  | SearchField.byAuthor => b.author

/-- display_statistics, identical in both front-ends: length, a count of
records with Read set, and the percentage guarded against division by
zero.  The float percentage is modelled as a rational. -/
def display_statistics (library : List Book) : Nat × Nat × ℚ :=
  let total_books := library.length
  let read_books := (library.filter (fun b => b.read)).length
  let percentage_read : ℚ :=
    if total_books > 0 then (read_books : ℚ) / (total_books : ℚ) * 100 else 0
  (total_books, read_books, percentage_read)

namespace Menu

/-- add_book in src/library_manager.py: append unconditionally, with no
validation of any field and no call to save_library. -/
def add_book (s : AppState) (title author : String) (year : Int)
    (genre : String) (readAnswer : String) : AppState :=
  { s with mem := s.mem ++
      [{ title := title, author := author, year := year, genre := genre,
         read := pyBoolYes readAnswer }] }

/-- remove_book in src/library_manager.py: the shared removal loop, with
no call to save_library. -/
def remove_book (s : AppState) (title : String) : AppState × Bool :=
  let p := removeBookCore s.mem title
  ({ s with mem := p.1 }, p.2)

/-- The per-field update of the menu edit flow.  Each text field is
assigned input or book.field, and the year is assigned
int(input) or book.Year, so empty text and the year zero are falsy and
keep the old value, while the read flag is always reassigned from the
answer. -/
def edit_fields (b : Book) (newTitle newAuthor : String) (newYear : Int)
    (newGenre : String) (readAnswer : String) : Book :=
  { title := if newTitle = "" then b.title else newTitle
    author := if newAuthor = "" then b.author else newAuthor
    year := if newYear = 0 then b.year else newYear
    genre := if newGenre = "" then b.genre else newGenre
    read := pyBoolYes readAnswer }

/-- The edit_book loop in src/library_manager.py: rewrite the first
case-insensitive title match in place and stop. -/
def edit_loop : List Book → String → String → String → Int → String →
    String → List Book × Bool
  | [], _, _, _, _, _, _ => ([], false)
  | b :: rest, title, nt, na, ny, ng, ra =>
    if titleMatch b title then (edit_fields b nt na ny ng ra :: rest, true)
    else
      let p := edit_loop rest title nt na ny ng ra
      (b :: p.1, p.2)

/-- edit_book in src/library_manager.py: run the loop; no save_library. -/
def edit_book (s : AppState) (title nt na : String) (ny : Int)
    (ng ra : String) : AppState × Bool :=
  let p := edit_loop s.mem title nt na ny ng ra
  ({ s with mem := p.1 }, p.2)

/-- search_book in src/library_manager.py: the user is asked to choose
Title or Author, but the bound choice is never used; the stripped,
lowercased query is matched against both fields. -/
def search_book (library : List Book) (choice : SearchField)
    (rawQuery : String) : List Book :=
  let query := pyLower (pyStrip rawQuery)
  library.filter (fun b =>
    strContains (pyLower b.title) query || strContains (pyLower b.author) query)

end Menu

namespace App

/-- add_book in src/app.py: append and save only when the truthiness test
if title and author and genre passes, so exactly when all three strings
are non-empty; no trimming is applied first. -/
def add_book (s : AppState) (title author : String) (year : Int)
    (genre : String) (readStatus : Bool) : AppState × Bool :=
  if title ≠ "" ∧ author ≠ "" ∧ genre ≠ "" then
    let mem := s.mem ++
      [{ title := title, author := author, year := year, genre := genre,
         read := readStatus }]
    (AppState.mk mem (save_library mem), true)
  else (s, false)

/-- remove_book in src/app.py: the shared removal loop, followed by
save_library exactly when a book was removed. -/
def remove_book (s : AppState) (title : String) : AppState × Bool :=
  match findFirstMatch s.mem title with
  | some b =>
    let mem := listRemoveFirstEq s.mem b
    (AppState.mk mem (save_library mem), true)
  | none => (s, false)

/-- The edit_book loop in src/app.py: the first case-insensitive title
match is overwritten with the submitted form values, all five fields. -/
def edit_loop : List Book → String → String → String → Int → String →
    Bool → List Book × Bool
  | [], _, _, _, _, _, _ => ([], false)
  | b :: rest, title, wt, wa, wy, wg, wr =>
    if titleMatch b title then
      ({ title := wt, author := wa, year := wy, genre := wg,
         read := wr } :: rest, true)
    else
      let p := edit_loop rest title wt wa wy wg wr
      (b :: p.1, p.2)

/-- edit_book in src/app.py: run the loop and save_library on submit. -/
def edit_book (s : AppState) (title wt wa : String) (wy : Int)
    (wg : String) (wr : Bool) : AppState × Bool :=
  let p := edit_loop s.mem title wt wa wy wg wr
  if p.2 then (AppState.mk p.1 (save_library p.1), true) else (s, false)

/-- search_book in src/app.py: the lowercased query is matched as a
substring of the lowercased chosen field only. -/
def search_book (library : List Book) (searchBy : SearchField)
    (query : String) : List Book :=
  library.filter (fun b =>
    strContains (pyLower (fieldOf b searchBy)) (pyLower query))

end App

/-- Index of the first case-insensitive title match, the specification
notion of first-match resolution in collection order. -/
def firstMatchIdx : List Book → String → Option Nat
  | [], _ => none
  | b :: rest, title =>
    if titleMatch b title then some 0
    else (firstMatchIdx rest title).map (fun n => n + 1)

/-- One web-form add request: the five field values a submission holds. -/
structure AddInput where
  title : String
  author : String
  year : Int
  genre : String
  readFlag : Bool
deriving DecidableEq, Repr

/-- A session of the web front-end that performs a sequence of add
submissions starting from an absent backing file. -/
def runAdds (inputs : List AddInput) : AppState :=
  inputs.foldl
    (fun s a => (App.add_book s a.title a.author a.year a.genre a.readFlag).1)
    (AppState.mk [] FileState.absent)

/-- Sample records used by concrete instantiations below. -/
def duneBook : Book := Book.mk "Dune" "Frank Herbert" 1965 "Sci-Fi" false

def hobbitBook : Book := Book.mk "The Hobbit" "Tolkien" 1937 "Fantasy" true

def duneCopy : Book := Book.mk "DUNE" "Brian Herbert" 2000 "Sci-Fi" true

/-- Any record findFirstMatch returns satisfies the title test. -/
theorem findFirstMatch_matches (lib : List Book) (t : String) (b : Book)
    (h : findFirstMatch lib t = some b) : titleMatch b t = true := by
  induction lib with
  | nil => simp [findFirstMatch] at h
  | cons x rest ih =>
    by_cases hx : titleMatch x t = true
    · simp [findFirstMatch, hx] at h
      rw [← h]; exact hx
    · simp [findFirstMatch, hx] at h
      exact ih h

/-- Unfolding removeBookCore at a matching head. -/
theorem removeBookCore_cons_pos (b : Book) (rest : List Book) (t : String)
    (h : titleMatch b t = true) :
    removeBookCore (b :: rest) t = (rest, true) := by
  simp [removeBookCore, findFirstMatch, h, listRemoveFirstEq]

/-- Unfolding removeBookCore at a non-matching head: the head cannot be
the record list.remove deletes, because equal records share a title. -/
theorem removeBookCore_cons_neg (b : Book) (rest : List Book) (t : String)
    (h : titleMatch b t = false) :
    removeBookCore (b :: rest) t =
      ((b :: (removeBookCore rest t).1), (removeBookCore rest t).2) := by
  unfold removeBookCore
  cases hf : findFirstMatch rest t with
  | none => simp [findFirstMatch, h, hf]
  | some m =>
    have hm : titleMatch m t = true := findFirstMatch_matches rest t m hf
    have hbm : b ≠ m := by
      intro he
      rw [he, hm] at h
      exact Bool.noConfusion h
    simp [findFirstMatch, h, hf, listRemoveFirstEq, hbm]

/-- A first-match index is a valid index. -/
theorem firstMatchIdx_lt (lib : List Book) (t : String) (i : Nat)
    (hi : firstMatchIdx lib t = some i) : i < lib.length := by
  induction lib generalizing i with
  | nil => simp [firstMatchIdx] at hi
  | cons b rest ih =>
    by_cases h : titleMatch b t = true
    · simp [firstMatchIdx, h] at hi
      simp only [List.length_cons]
      omega
    · simp [firstMatchIdx, h] at hi
      obtain ⟨j, hj, rfl⟩ := hi
      have := ih j hj
      simp only [List.length_cons]
      omega

/-- When no title matches, removeBookCore reports failure, unchanged. -/
theorem removeBookCore_none (lib : List Book) (t : String)
    (hn : firstMatchIdx lib t = none) : removeBookCore lib t = (lib, false) := by
  induction lib with
  | nil => simp [removeBookCore, findFirstMatch]
  | cons b rest ih =>
    by_cases h : titleMatch b t = true
    · simp [firstMatchIdx, h] at hn
    · simp [firstMatchIdx, h] at hn
      rw [removeBookCore_cons_neg b rest t (by simpa using h), ih hn]

/-- At a first match, removeBookCore deletes exactly that position. -/
theorem removeBookCore_some (lib : List Book) (t : String) (i : Nat)
    (hi : firstMatchIdx lib t = some i) :
    removeBookCore lib t = (lib.take i ++ lib.drop (i + 1), true) := by
  induction lib generalizing i with
  | nil => simp [firstMatchIdx] at hi
  | cons b rest ih =>
    by_cases h : titleMatch b t = true
    · simp [firstMatchIdx, h] at hi
      subst hi
      simpa using removeBookCore_cons_pos b rest t h
    · simp [firstMatchIdx, h] at hi
      obtain ⟨j, hj, rfl⟩ := hi
      rw [removeBookCore_cons_neg b rest t (by simpa using h), ih j hj]
      simp

/-- The menu edit loop is the identity when no title matches. -/
theorem menu_edit_loop_none (lib : List Book) (t nt na : String) (ny : Int)
    (ng ra : String) (hn : firstMatchIdx lib t = none) :
    Menu.edit_loop lib t nt na ny ng ra = (lib, false) := by
  induction lib with
  | nil => rfl
  | cons b rest ih =>
    by_cases h : titleMatch b t = true
    · simp [firstMatchIdx, h] at hn
    · simp [firstMatchIdx, h] at hn
      simp [Menu.edit_loop, h, ih hn]

/-- The menu edit loop rewrites exactly the first matching position. -/
theorem menu_edit_loop_some (lib : List Book) (t nt na : String) (ny : Int)
    (ng ra : String) (i : Nat) (b : Book) (hi : firstMatchIdx lib t = some i)
    (hb : lib[i]? = some b) :
    Menu.edit_loop lib t nt na ny ng ra =
      (lib.set i (Menu.edit_fields b nt na ny ng ra), true) := by
  induction lib generalizing i with
  | nil => simp [firstMatchIdx] at hi
  | cons x rest ih =>
    by_cases h : titleMatch x t = true
    · simp [firstMatchIdx, h] at hi
      subst hi
      simp at hb
      subst hb
      simp [Menu.edit_loop, h]
    · simp [firstMatchIdx, h] at hi
      obtain ⟨j, hj, rfl⟩ := hi
      simp at hb
      simp [Menu.edit_loop, h, ih j hj hb]

/-- The web edit loop is the identity when no title matches. -/
theorem app_edit_loop_none (lib : List Book) (t wt wa : String) (wy : Int)
    (wg : String) (wr : Bool) (hn : firstMatchIdx lib t = none) :
    App.edit_loop lib t wt wa wy wg wr = (lib, false) := by
  induction lib with
  | nil => rfl
  | cons b rest ih =>
    by_cases h : titleMatch b t = true
    · simp [firstMatchIdx, h] at hn
    · simp [firstMatchIdx, h] at hn
      simp [App.edit_loop, h, ih hn]

/-- The web edit loop overwrites exactly the first matching position with
the submitted values. -/
theorem app_edit_loop_some (lib : List Book) (t wt wa : String) (wy : Int)
    (wg : String) (wr : Bool) (i : Nat) (hi : firstMatchIdx lib t = some i) :
    App.edit_loop lib t wt wa wy wg wr =
      (lib.set i (Book.mk wt wa wy wg wr), true) := by
  induction lib generalizing i with
  | nil => simp [firstMatchIdx] at hi
  | cons x rest ih =>
    by_cases h : titleMatch x t = true
    · simp [firstMatchIdx, h] at hi
      subst hi
      simp [App.edit_loop, h]
    · simp [firstMatchIdx, h] at hi
      obtain ⟨j, hj, rfl⟩ := hi
      simp [App.edit_loop, h, ih j hj]

/-- Reading one serialized record back yields the record itself. -/
theorem readBook_bookToJson (b : Book) : readBook (bookToJson b) = some b := rfl

/-- Decoding the serialization of any library yields the library. -/
theorem decode_save (lib : List Book) :
    decodeBooks (load_library (save_library lib)) = some lib := by
  show decodeBookList (lib.map bookToJson) = some lib
  induction lib with
  | nil => rfl
  | cons b rest ih => simp [decodeBookList, readBook_bookToJson, ih]

/-- Unfolding of the menu edit entry point on an explicit state. -/
theorem menu_edit_book_mk (lib : List Book) (fs : FileState)
    (title nt na : String) (ny : Int) (ng ra : String) :
    Menu.edit_book (AppState.mk lib fs) title nt na ny ng ra =
      (AppState.mk (Menu.edit_loop lib title nt na ny ng ra).1 fs,
       (Menu.edit_loop lib title nt na ny ng ra).2) := rfl

/-- Unfolding of the web edit entry point on an explicit state. -/
theorem app_edit_book_mk (lib : List Book) (fs : FileState)
    (title wt wa : String) (wy : Int) (wg : String) (wr : Bool) :
    App.edit_book (AppState.mk lib fs) title wt wa wy wg wr =
      (if (App.edit_loop lib title wt wa wy wg wr).2 then
        (AppState.mk (App.edit_loop lib title wt wa wy wg wr).1
          (save_library (App.edit_loop lib title wt wa wy wg wr).1), true)
       else (AppState.mk lib fs, false)) := rfl

/-- Claim C5: for every library and title, remove deletes exactly the
first book in insertion order whose title equals the given title
case-insensitively, so only that one is removed even among duplicates,
and when no book matches the removal reports failure and the library is
unchanged. -/
theorem remove_book_first_match (lib : List Book) (t : String) :
    (firstMatchIdx lib t = none → removeBookCore lib t = (lib, false)) ∧
    (∀ i, firstMatchIdx lib t = some i →
      removeBookCore lib t = (lib.take i ++ lib.drop (i + 1), true)) :=
  ⟨removeBookCore_none lib t, fun i hi => removeBookCore_some lib t i hi⟩

/-- Concrete instantiation of remove_book_first_match on a library whose
first and third entries share the title dune in different cases. -/
theorem remove_book_first_match_witness :
    firstMatchIdx [duneBook, hobbitBook, duneCopy] "dune" = some 0 ∧
    removeBookCore [duneBook, hobbitBook, duneCopy] "dune" =
      ([duneBook, hobbitBook, duneCopy].take 0 ++
        [duneBook, hobbitBook, duneCopy].drop (0 + 1), true) :=
  ⟨by decide,
   (remove_book_first_match [duneBook, hobbitBook, duneCopy] "dune").2 0
     (by decide)⟩

/-- Claim C9: removal leaves every book other than the removed one fully
intact and preserves the relative order of the remaining books; when no
title matches, the library is exactly unchanged. -/
theorem remove_book_frame (lib : List Book) (t : String) :
    (firstMatchIdx lib t = none → (removeBookCore lib t).1 = lib) ∧
    (∀ i, firstMatchIdx lib t = some i →
      (∀ j, j < i → ((removeBookCore lib t).1)[j]? = lib[j]?) ∧
      (∀ j, i ≤ j → ((removeBookCore lib t).1)[j]? = lib[j + 1]?)) := by
  constructor
  · intro hn
    rw [removeBookCore_none lib t hn]
  · intro i hi
    have hlen : i < lib.length := firstMatchIdx_lt lib t i hi
    rw [removeBookCore_some lib t i hi]
    have hmin : (List.take i lib).length = i := by
      rw [List.length_take]
      omega
    constructor
    · intro j hj
      rw [List.getElem?_append, hmin, if_pos hj, List.getElem?_take,
        if_pos hj]
    · intro j hj
      rw [List.getElem?_append_right (by rw [hmin]; exact hj), hmin,
        List.getElem?_drop]
      congr 1
      omega

/-- Concrete instantiation of remove_book_frame at first match index one:
the earlier book keeps its slot and the later book shifts down by one. -/
theorem remove_book_frame_witness :
    firstMatchIdx [hobbitBook, duneBook, duneCopy] "dune" = some 1 ∧
    ((removeBookCore [hobbitBook, duneBook, duneCopy] "dune").1)[0]? =
      [hobbitBook, duneBook, duneCopy][0]? ∧
    ((removeBookCore [hobbitBook, duneBook, duneCopy] "dune").1)[1]? =
      [hobbitBook, duneBook, duneCopy][1 + 1]? :=
  ⟨by decide,
   ((remove_book_frame [hobbitBook, duneBook, duneCopy] "dune").2 1
     (by decide)).1 0 (by decide),
   ((remove_book_frame [hobbitBook, duneBook, duneCopy] "dune").2 1
     (by decide)).2 1 (by decide)⟩

/-- Claim C7: statistics reports the number of books, the number of read
books, and the read percentage, equal to read over total times one
hundred for a non-empty library and zero for the empty one, so no
division by zero occurs; the empty library reports all zeroes. -/
theorem display_statistics_spec :
    (∀ lib : List Book,
      display_statistics lib =
        (lib.length, lib.countP (fun b => b.read),
          if lib.length = 0 then 0
          else (lib.countP (fun b => b.read) : ℚ) / (lib.length : ℚ) * 100)) ∧
    display_statistics [] = (0, 0, 0) := by
  constructor
  · intro lib
    unfold display_statistics
    rw [List.countP_eq_length_filter]
    rcases Nat.eq_zero_or_pos lib.length with h | h
    · simp [h]
    · have h0 : lib.length ≠ 0 := by omega
      simp [h, h0]
  · rfl

/-- Claim C8: a library built by a sequence of valid web add submissions,
when saved and loaded back through the backing file, reproduces exactly
the same sequence of books with all five fields intact. -/
theorem save_load_round_trip (inputs : List AddInput)
    (hv : ∀ a ∈ inputs, a.title ≠ "" ∧ a.author ≠ "" ∧ a.genre ≠ "") :
    decodeBooks (load_library (save_library (runAdds inputs).mem)) =
      some (runAdds inputs).mem :=
  decode_save (runAdds inputs).mem

/-- Concrete instantiation of save_load_round_trip on one valid add. -/
theorem save_load_round_trip_witness :
    (∀ a ∈ [AddInput.mk "Dune" "Frank Herbert" 1965 "Sci-Fi" false],
      a.title ≠ "" ∧ a.author ≠ "" ∧ a.genre ≠ "") ∧
    decodeBooks (load_library (save_library
        (runAdds [AddInput.mk "Dune" "Frank Herbert" 1965 "Sci-Fi" false]).mem)) =
      some (runAdds [AddInput.mk "Dune" "Frank Herbert" 1965 "Sci-Fi" false]).mem :=
  ⟨by decide,
   save_load_round_trip [AddInput.mk "Dune" "Frank Herbert" 1965 "Sci-Fi" false]
     (by decide)⟩

/-- Claim C6 counterexample: the number forty-two is valid JSON that is
not a list of books, yet load returns it unchanged rather than the empty
library. -/
theorem load_library_returns_nonlist_json :
    load_library (FileState.json (Json.num 42)) = Json.num 42 ∧
    decodeBooks (Json.num 42) = none ∧
    load_library (FileState.json (Json.num 42)) ≠ Json.arr [] :=
  ⟨rfl, rfl, fun h => Json.noConfusion h⟩

/-- Claim C6 amended: load yields the empty library exactly when the file
is absent or its content is not valid JSON; content that parses as JSON
is returned as-is, with no check that it is a list of five-field book
objects. -/
theorem load_library_fallback_cases :
    load_library FileState.absent = Json.arr [] ∧
    (∀ s, load_library (FileState.invalid s) = Json.arr []) ∧
    (∀ j, load_library (FileState.json j) = j) :=
  ⟨rfl, fun _ => rfl, fun _ => rfl⟩

/-- Claim C2: at a concrete input the menu search, told to search by
Author, still returns the book whose author does not contain the query,
because the query is matched against title or author regardless of the
chosen field; the web search at the same input honours the chosen field
and returns nothing. -/
theorem menu_search_ignores_chosen_field :
    Menu.search_book [duneBook] SearchField.byAuthor "dune" = [duneBook] ∧
    strContains (pyLower duneBook.author) (pyLower (pyStrip "dune")) = false ∧
    App.search_book [duneBook] SearchField.byAuthor "dune" = [] :=
  ⟨by decide, by decide, by decide⟩

/-- Claim C3 counterexample: a whitespace-only title is accepted by the
web add, and a record with every text field empty is accepted by the menu
add; neither rejects, and both grow the library. -/
theorem add_book_accepts_blank_fields :
    (App.add_book (AppState.mk [] (save_library [])) " " "Frank Herbert"
        1965 "Sci-Fi" false).1.mem =
      [Book.mk " " "Frank Herbert" 1965 "Sci-Fi" false] ∧
    pyStrip " " = "" ∧
    (Menu.add_book (AppState.mk [] (save_library [])) "" "" 0 "" "no").mem =
      [Book.mk "" "" 0 "" false] :=
  ⟨by decide, by decide, by decide⟩

/-- Claim C3 amended: the web add appends exactly one book when title,
author and genre are all non-empty strings, with no trimming, so
whitespace-only values pass; when any of the three is the empty string it
reports an error and leaves the state unchanged; the menu add performs no
validation at all and always appends; any integer year and any read value
are accepted by both. -/
theorem add_book_validation_policy (s : AppState) (t a : String) (y : Int)
    (g : String) (r : Bool) (ra : String) :
    (t ≠ "" ∧ a ≠ "" ∧ g ≠ "" →
      App.add_book s t a y g r =
        (AppState.mk (s.mem ++ [Book.mk t a y g r])
          (save_library (s.mem ++ [Book.mk t a y g r])), true)) ∧
    ((t = "" ∨ a = "" ∨ g = "") → App.add_book s t a y g r = (s, false)) ∧
    (Menu.add_book s t a y g ra).mem =
      s.mem ++ [Book.mk t a y g (pyBoolYes ra)] := by
  refine ⟨?_, ?_, rfl⟩
  · intro h
    unfold App.add_book
    rw [if_pos h]
  · intro h
    have hneg : ¬(t ≠ "" ∧ a ≠ "" ∧ g ≠ "") := by tauto
    unfold App.add_book
    rw [if_neg hneg]

/-- Concrete instantiation of add_book_validation_policy: one accepted
add and one rejected add with an empty title. -/
theorem add_book_validation_policy_witness :
    ("Dune" ≠ "" ∧ "Frank Herbert" ≠ "" ∧ "Sci-Fi" ≠ "") ∧
    App.add_book (AppState.mk [] FileState.absent) "Dune" "Frank Herbert"
        1965 "Sci-Fi" false =
      (AppState.mk ([] ++ [Book.mk "Dune" "Frank Herbert" 1965 "Sci-Fi" false])
        (save_library ([] ++ [Book.mk "Dune" "Frank Herbert" 1965 "Sci-Fi" false])),
       true) ∧
    (("" : String) = "" ∨ "Tolkien" = "" ∨ "Fantasy" = "") ∧
    App.add_book (AppState.mk [] FileState.absent) "" "Tolkien" 1937
        "Fantasy" true = (AppState.mk [] FileState.absent, false) :=
  ⟨by decide,
   (add_book_validation_policy (AppState.mk [] FileState.absent) "Dune"
     "Frank Herbert" 1965 "Sci-Fi" false "yes").1 (by decide),
   Or.inl rfl,
   (add_book_validation_policy (AppState.mk [] FileState.absent) ""
     "Tolkien" 1937 "Fantasy" true "yes").2.1 (Or.inl rfl)⟩

/-- Claim C4 counterexample: in the web front-end, submitting the edit
form with an empty Author stores the empty author instead of keeping the
prior value Frank Herbert. -/
theorem app_edit_blanks_author :
    (App.edit_book (AppState.mk [duneBook] (save_library [duneBook]))
        "dune" "Dune" "" 1965 "Sci-Fi" false).1.mem =
      [Book.mk "Dune" "" 1965 "Sci-Fi" false] ∧
    duneBook.author = "Frank Herbert" :=
  ⟨by decide, rfl⟩

/-- Claim C4 amended: when a case-insensitive title match exists, the
menu edit rewrites only the first matching book, keeping any text field
whose new value is the empty string and the year when the new year is
zero, while the read flag follows the answer; the web edit instead
stores the submitted values for all five fields, so an empty submission
overwrites; when no title matches, neither front-end changes anything
and both report not found. -/
theorem edit_book_field_policy (lib : List Book) (fs : FileState)
    (t nt na : String) (ny : Int) (ng ra : String)
    (wt wa : String) (wy : Int) (wg : String) (wr : Bool) :
    (firstMatchIdx lib t = none →
      Menu.edit_book (AppState.mk lib fs) t nt na ny ng ra =
        (AppState.mk lib fs, false) ∧
      App.edit_book (AppState.mk lib fs) t wt wa wy wg wr =
        (AppState.mk lib fs, false)) ∧
    (∀ i b, firstMatchIdx lib t = some i → lib[i]? = some b →
      (Menu.edit_book (AppState.mk lib fs) t nt na ny ng ra).1.mem =
        lib.set i (Book.mk (if nt = "" then b.title else nt)
          (if na = "" then b.author else na)
          (if ny = 0 then b.year else ny)
          (if ng = "" then b.genre else ng)
          (pyBoolYes ra)) ∧
      (App.edit_book (AppState.mk lib fs) t wt wa wy wg wr).1.mem =
        lib.set i (Book.mk wt wa wy wg wr)) := by
  constructor
  · intro hn
    constructor
    · rw [menu_edit_book_mk, menu_edit_loop_none lib t nt na ny ng ra hn]
    · rw [app_edit_book_mk, app_edit_loop_none lib t wt wa wy wg wr hn]
      rfl
  · intro i b hi hb
    constructor
    · rw [menu_edit_book_mk, menu_edit_loop_some lib t nt na ny ng ra i b hi hb]
      rfl
    · rw [app_edit_book_mk, app_edit_loop_some lib t wt wa wy wg wr i hi]
      rfl

/-- Concrete instantiation of edit_book_field_policy: a menu edit with
every text input empty and year zero keeps all prior values except the
read flag, while a web edit with an empty author blanks it. -/
theorem edit_book_field_policy_witness :
    firstMatchIdx [duneBook] "dune" = some 0 ∧
    [duneBook][0]? = some duneBook ∧
    ((Menu.edit_book (AppState.mk [duneBook] FileState.absent) "dune" "" ""
        0 "" "yes").1.mem =
      [duneBook].set 0 (Book.mk
        (if ("" : String) = "" then duneBook.title else "")
        (if ("" : String) = "" then duneBook.author else "")
        (if (0 : Int) = 0 then duneBook.year else 0)
        (if ("" : String) = "" then duneBook.genre else "")
        (pyBoolYes "yes")) ∧
     (App.edit_book (AppState.mk [duneBook] FileState.absent) "dune" "Dune"
        "" 1965 "Sci-Fi" false).1.mem =
      [duneBook].set 0 (Book.mk "Dune" "" 1965 "Sci-Fi" false)) :=
  ⟨by decide, by decide,
   (edit_book_field_policy [duneBook] FileState.absent "dune" "" "" 0 ""
     "yes" "Dune" "" 1965 "Sci-Fi" false).2 0 duneBook (by decide) (by decide)⟩

/-- Claim C10: in the menu edit, a supplied year of zero keeps the prior
year because the update expression treats zero as no input, any non-zero
year replaces the old one, and the read flag is always taken from the
answer, never kept. -/
theorem menu_edit_year_zero_policy (lib : List Book) (fs : FileState)
    (t nt na : String) (ny : Int) (ng ra : String) (i : Nat) (b : Book)
    (hi : firstMatchIdx lib t = some i) (hb : lib[i]? = some b) :
    ∃ b2, ((Menu.edit_book (AppState.mk lib fs) t nt na ny ng ra).1.mem)[i]? =
        some b2 ∧
      (ny = 0 → b2.year = b.year) ∧ (ny ≠ 0 → b2.year = ny) ∧
      b2.read = pyBoolYes ra := by
  have hlen : i < lib.length := firstMatchIdx_lt lib t i hi
  refine ⟨Menu.edit_fields b nt na ny ng ra, ?_, ?_, ?_, rfl⟩
  · rw [menu_edit_book_mk, menu_edit_loop_some lib t nt na ny ng ra i b hi hb]
    exact List.getElem?_set_eq_of_lt _ hlen
  · intro h0
    simp [Menu.edit_fields, h0]
  · intro h0
    simp [Menu.edit_fields, h0]

/-- Concrete instantiation of menu_edit_year_zero_policy with the year
input zero and the answer no. -/
theorem menu_edit_year_zero_policy_witness :
    firstMatchIdx [duneBook] "Dune" = some 0 ∧
    [duneBook][0]? = some duneBook ∧
    ∃ b2, ((Menu.edit_book (AppState.mk [duneBook] FileState.absent) "Dune"
        "" "" 0 "" "no").1.mem)[0]? = some b2 ∧
      ((0 : Int) = 0 → b2.year = duneBook.year) ∧
      ((0 : Int) ≠ 0 → b2.year = 0) ∧
      b2.read = pyBoolYes "no" :=
  ⟨by decide, by decide,
   menu_edit_year_zero_policy [duneBook] FileState.absent "Dune" "" "" 0 ""
     "no" 0 duneBook (by decide) (by decide)⟩

/-- Claim C1 counterexample: a menu add starting from a state whose file
matches memory leaves the file untouched, so right after the successful
mutation the file is no longer the serialization of the in-memory
sequence. -/
theorem menu_add_skips_save :
    (Menu.add_book (AppState.mk [] (save_library [])) "Dune" "Frank Herbert"
        1965 "Sci-Fi" "yes").file ≠
      save_library (Menu.add_book (AppState.mk [] (save_library []))
        "Dune" "Frank Herbert" 1965 "Sci-Fi" "yes").mem := by
  intro h
  simp [Menu.add_book, save_library] at h

/-- Claim C1 amended: in the web front-end every successful mutating
operation writes the file immediately, so the on-disk state equals the
serialization of the in-memory sequence right after each successful add,
remove or edit; the menu front-end mutates memory only and saves once on
exit. -/
theorem app_mutations_write_through (s : AppState) (t a : String) (y : Int)
    (g : String) (r : Bool) (rt : String) (et wt wa : String) (wy : Int)
    (wg : String) (wr : Bool) :
    ((App.add_book s t a y g r).2 = true →
      (App.add_book s t a y g r).1.file =
        save_library (App.add_book s t a y g r).1.mem) ∧
    ((App.remove_book s rt).2 = true →
      (App.remove_book s rt).1.file =
        save_library (App.remove_book s rt).1.mem) ∧
    ((App.edit_book s et wt wa wy wg wr).2 = true →
      (App.edit_book s et wt wa wy wg wr).1.file =
        save_library (App.edit_book s et wt wa wy wg wr).1.mem) := by
  refine ⟨?_, ?_, ?_⟩
  · unfold App.add_book
    split
    · intro _
      rfl
    · intro h
      simp at h
  · unfold App.remove_book
    split
    · intro _
      rfl
    · intro h
      simp at h
  · simp only [App.edit_book]
    split
    · intro _
      rfl
    · intro h
      simp at h

/-- Concrete instantiation of app_mutations_write_through: a successful
add, remove and edit on a one-book state. -/
theorem app_mutations_write_through_witness :
    (App.add_book (AppState.mk [duneBook] (save_library [duneBook]))
        "The Hobbit" "Tolkien" 1937 "Fantasy" true).2 = true ∧
    (App.add_book (AppState.mk [duneBook] (save_library [duneBook]))
        "The Hobbit" "Tolkien" 1937 "Fantasy" true).1.file =
      save_library (App.add_book (AppState.mk [duneBook]
        (save_library [duneBook])) "The Hobbit" "Tolkien" 1937 "Fantasy"
        true).1.mem ∧
    (App.remove_book (AppState.mk [duneBook] (save_library [duneBook]))
        "DUNE").2 = true ∧
    (App.remove_book (AppState.mk [duneBook] (save_library [duneBook]))
        "DUNE").1.file =
      save_library (App.remove_book (AppState.mk [duneBook]
        (save_library [duneBook])) "DUNE").1.mem ∧
    (App.edit_book (AppState.mk [duneBook] (save_library [duneBook]))
        "dune" "Dune" "Frank Herbert" 1966 "Sci-Fi" true).2 = true ∧
    (App.edit_book (AppState.mk [duneBook] (save_library [duneBook]))
        "dune" "Dune" "Frank Herbert" 1966 "Sci-Fi" true).1.file =
      save_library (App.edit_book (AppState.mk [duneBook]
        (save_library [duneBook])) "dune" "Dune" "Frank Herbert" 1966
        "Sci-Fi" true).1.mem :=
  ⟨by decide,
   (app_mutations_write_through (AppState.mk [duneBook]
     (save_library [duneBook])) "The Hobbit" "Tolkien" 1937 "Fantasy" true
     "DUNE" "dune" "Dune" "Frank Herbert" 1966 "Sci-Fi" true).1 (by decide),
   by decide,
   (app_mutations_write_through (AppState.mk [duneBook]
     (save_library [duneBook])) "The Hobbit" "Tolkien" 1937 "Fantasy" true
     "DUNE" "dune" "Dune" "Frank Herbert" 1966 "Sci-Fi" true).2.1 (by decide),
   by decide,
   (app_mutations_write_through (AppState.mk [duneBook]
     (save_library [duneBook])) "The Hobbit" "Tolkien" 1937 "Fantasy" true
     "DUNE" "dune" "Dune" "Frank Herbert" 1966 "Sci-Fi" true).2.2 (by decide)⟩
